import Mathlib

/-!
Shallow embedding of `src/api/index.py` (Shared Home Expense Tracker backend).

The database is modelled as an explicit `Store` value holding the five tables
as lists together with auto-increment counters; each endpoint body becomes a
pure function from the store (and its arguments) to a new store plus a result,
where the result is `Except HErr α` mirroring FastAPI's `HTTPException`
(status code and detail string).  JWT signing (HS256) is modelled abstractly
as a deterministic keyed hash over the payload; `jwt.decode` checks the
signature and the `exp` claim against the current time (PyJWT rejects a token
whose `exp` lies strictly in the past).  Times are seconds since the epoch as
naturals; monetary amounts are rationals (the code only ever copies and
compares them).
-/

namespace HomeApp

/-- Row of the `users` table (`User` model, index.py lines 42-54).
The unused `created_at` timestamp column is omitted. -/
structure User where
  id : Nat
  username : String
  password : String
  full_name : String
  role : String
deriving Repr, DecidableEq

/-- Row of the `categories` table (`Category` model, lines 56-64). -/
structure Category where
  id : Nat
  name : String
  color : String
deriving Repr, DecidableEq

/-- Row of the `expenses` table (`Expense` model, lines 66-80). -/
structure Expense where
  id : Nat
  amount : Rat
  category_id : Nat
  payment_mode : String
  paid_by : Nat
  date : String
  time : String
  description : Option String
deriving Repr, DecidableEq

/-- Row of the `to_buy_items` table (`ToBuyItem` model, lines 82-100). -/
structure ToBuyItem where
  id : Nat
  name : String
  quantity : Option String
  target_date : String
  priority : String
  notes : Option String
  created_by : Nat
  purchased : Bool
  purchased_by : Option Nat
  purchase_amount : Option Rat
  purchase_payment_mode : Option String
  purchase_date : Option String
deriving Repr, DecidableEq

/-- Row of the `settings` table (`Settings` model, lines 102-108); the
surrogate `id` and `updated_at` columns are never read and are omitted. -/
structure Setting where
  key : String
  value : String
deriving Repr, DecidableEq

/-- The whole database: five tables plus auto-increment id counters. -/
structure Store where
  users : List User
  categories : List Category
  expenses : List Expense
  to_buy_items : List ToBuyItem
  settings : List Setting
  next_user_id : Nat
  next_category_id : Nat
  next_expense_id : Nat
  next_item_id : Nat
deriving Repr, DecidableEq

/-- An `HTTPException`: status code plus detail message. -/
structure HErr where
  status : Nat
  detail : String
deriving Repr, DecidableEq

/-! ## JWT helpers (lines 203-224) -/

/-- A decoded JWT: payload (`sub` claim, `exp` claim as epoch seconds) plus
the HS256 signature word. -/
structure Token where
  sub : String
  exp : Nat
  sig : Nat
deriving Repr, DecidableEq

/-- Deterministic hash of a string (stands in for SHA-256 internals). -/
def strHash (s : String) : Nat :=
  s.data.foldl (fun h c => h * 131 + c.toNat + 1) 7

/-- Model of HMAC-SHA256 over the token payload with the server secret:
a deterministic keyed hash.  Only the equation `sig = signToken secret sub exp`
(signature valid) versus its negation (signature check fails) matters to the
properties below. -/
def signToken (secret sub : String) (exp : Nat) : Nat :=
  strHash secret * 1000003 + strHash sub * 131 + exp

/-- `ACCESS_TOKEN_EXPIRE_HOURS = 24` (line 22), in seconds. -/
def accessTokenExpireSeconds : Nat := 24 * 3600

/-- `create_access_token` (lines 203-213) with `expires_delta = None`, called
with payload `{"sub": sub}` at time `now`: sets `exp = now + 24h` and signs. -/
def create_access_token (secret : String) (now : Nat) (sub : String) : Token :=
  let exp := now + accessTokenExpireSeconds
  { sub := sub, exp := exp, sig := signToken secret sub exp }

/-- `decode_access_token` (lines 215-224): `jwt.decode` verifies the signature
and that the `exp` claim is not in the past, then the `sub` claim is returned;
any failure yields `None`. -/
def decode_access_token (secret : String) (now : Nat) (t : Token) : Option String :=
  if t.sig = signToken secret t.sub t.exp ∧ now ≤ t.exp then some t.sub else none

/-! ## Authentication dependencies (lines 256-288) -/

/-- `get_current_user` (lines 256-279): decode the bearer token, then look the
embedded username up in the `users` table. -/
def get_current_user (db : Store) (secret : String) (now : Nat) (t : Token) :
    Except HErr User :=
  match decode_access_token secret now t with
  | none => .error ⟨401, "Invalid or expired token"⟩
  | some username =>
    match db.users.find? (fun u => decide (u.username = username)) with
    | none => .error ⟨401, "User not found"⟩
    | some u => .ok u

/-- `get_admin_user` (lines 281-288). -/
def get_admin_user (current_user : User) : Except HErr User :=
  if current_user.role = "admin" then .ok current_user
  else .error ⟨403, "Admin access required"⟩

/-! ## Authentication endpoint (lines 354-377) -/

/-- `login` (lines 354-377): one query filtering on username AND password
(plain string equality, no hashing); on a match issue a token whose `sub` is
the stored username, otherwise 401 "Invalid credentials". -/
def login (db : Store) (secret : String) (now : Nat)
    (username password : String) : Except HErr (Token × User) :=
  match db.users.find?
      (fun u => decide (u.username = username) && decide (u.password = password)) with
  | none => .error ⟨401, "Invalid credentials"⟩
  | some u => .ok (create_access_token secret now u.username, u)

/-! ## Users endpoints (lines 386-424) -/

/-- Request body `UserCreate` (lines 112-116). -/
structure UserCreate where
  username : String
  password : String
  full_name : String
  role : String := "user"
deriving Repr, DecidableEq

/-- `create_user` (lines 393-410): admin-gated; reject a duplicate username
with 400, else insert with the next id.  An error leaves the store unchanged. -/
def create_user (db : Store) (caller : User) (u : UserCreate) :
    Store × Except HErr User :=
  match get_admin_user caller with
  | .error e => (db, .error e)
  | .ok _ =>
    match db.users.find? (fun x => decide (x.username = u.username)) with
    | some _ => (db, .error ⟨400, "Username already exists"⟩)
    | none =>
      let nu : User :=
        { id := db.next_user_id, username := u.username, password := u.password,
          full_name := u.full_name, role := u.role }
      ({ db with users := db.users ++ [nu], next_user_id := db.next_user_id + 1 },
       .ok nu)

/-- `delete_user` (lines 412-424): admin-gated; 404 if the id is absent. -/
def delete_user (db : Store) (caller : User) (user_id : Nat) :
    Store × Except HErr String :=
  match get_admin_user caller with
  | .error e => (db, .error e)
  | .ok _ =>
    match db.users.find? (fun x => decide (x.id = user_id)) with
    | none => (db, .error ⟨404, "User not found"⟩)
    | some _ =>
      ({ db with users := db.users.filter (fun x => decide (x.id ≠ user_id)) },
       .ok "User deleted successfully")

/-! ## Categories endpoints (lines 428-466) -/

/-- Request body `CategoryCreate` (lines 135-137). -/
structure CategoryCreate where
  name : String
  color : String := "#3498db"
deriving Repr, DecidableEq

/-- `create_category` (lines 435-452): bearer-gated only; reject a duplicate
name with 400, else insert with the next id. -/
def create_category (db : Store) (c : CategoryCreate) :
    Store × Except HErr Category :=
  match db.categories.find? (fun x => decide (x.name = c.name)) with
  | some _ => (db, .error ⟨400, "Category already exists"⟩)
  | none =>
    let nc : Category := { id := db.next_category_id, name := c.name, color := c.color }
    ({ db with categories := db.categories ++ [nc],
               next_category_id := db.next_category_id + 1 }, .ok nc)

/-- `delete_category` (lines 454-466): admin-gated; 404 if the id is absent. -/
def delete_category (db : Store) (caller : User) (category_id : Nat) :
    Store × Except HErr String :=
  match get_admin_user caller with
  | .error e => (db, .error e)
  | .ok _ =>
    match db.categories.find? (fun x => decide (x.id = category_id)) with
    | none => (db, .error ⟨404, "Category not found"⟩)
    | some _ =>
      ({ db with categories := db.categories.filter (fun x => decide (x.id ≠ category_id)) },
       .ok "Category deleted successfully")

/-! ## Expenses endpoints (lines 470-519) -/

/-- Descending (date, time) comparison used to embed
`order_by(Expense.date.desc(), Expense.time.desc())` (line 493):
`a` may precede `b` iff `a.date > b.date`, or the dates are equal and
`a.time ≥ b.time`. -/
def expenseLe (a b : Expense) : Bool :=
  decide (b.date < a.date) || (decide (a.date = b.date) && decide (b.time ≤ a.time))

/-- `get_expenses` (lines 470-493).  Each query parameter guards its filter by
Python truthiness (`if category_id:` etc.), so `None`, `0` and `""` all skip
the filter; the surviving rows are ordered by date descending then time
descending. -/
def get_expenses (db : Store) (category_id paid_by : Option Nat)
    (payment_mode start_date end_date : Option String) : List Expense :=
  let q := db.expenses
  let q : List Expense := match category_id with
    | some v => if v ≠ 0 then q.filter (fun e => decide (e.category_id = v)) else q
    | none => q
  let q : List Expense := match paid_by with
    | some v => if v ≠ 0 then q.filter (fun e => decide (e.paid_by = v)) else q
    | none => q
  let q : List Expense := match payment_mode with
    | some v => if v ≠ "" then q.filter (fun e => decide (e.payment_mode = v)) else q
    | none => q
  let q : List Expense := match start_date with
    | some v => if v ≠ "" then q.filter (fun e => decide (v ≤ e.date)) else q
    | none => q
  let q : List Expense := match end_date with
    | some v => if v ≠ "" then q.filter (fun e => decide (e.date ≤ v)) else q
    | none => q
  q.mergeSort expenseLe

/-- Request body `ExpenseCreate` (lines 146-153). -/
structure ExpenseCreate where
  amount : Rat
  category_id : Nat
  payment_mode : String
  paid_by : Nat
  date : String
  time : String
  description : Option String := none
deriving Repr, DecidableEq

/-- `create_expense` (lines 495-505): inserts the row as supplied — no lookup
of `category_id` or `paid_by` anywhere in the body — and returns it. -/
def create_expense (db : Store) (x : ExpenseCreate) : Store × Except HErr Expense :=
  let ne : Expense :=
    { id := db.next_expense_id, amount := x.amount, category_id := x.category_id,
      payment_mode := x.payment_mode, paid_by := x.paid_by, date := x.date,
      time := x.time, description := x.description }
  ({ db with expenses := db.expenses ++ [ne],
             next_expense_id := db.next_expense_id + 1 }, .ok ne)

/-- `delete_expense` (lines 507-519): 404 if the id is absent. -/
def delete_expense (db : Store) (expense_id : Nat) : Store × Except HErr String :=
  match db.expenses.find? (fun x => decide (x.id = expense_id)) with
  | none => (db, .error ⟨404, "Expense not found"⟩)
  | some _ =>
    ({ db with expenses := db.expenses.filter (fun x => decide (x.id ≠ expense_id)) },
     .ok "Expense deleted successfully")

/-! ## To-buy endpoints (lines 523-603) -/

/-- Request body `ToBuyItemCreate` (lines 168-173). -/
structure ToBuyItemCreate where
  name : String
  quantity : Option String := none
  target_date : String
  priority : String := "medium"
  notes : Option String := none
deriving Repr, DecidableEq

/-- Request body `ToBuyItemPurchase` (lines 175-179). -/
structure ToBuyItemPurchase where
  purchased_by : Nat
  purchase_amount : Rat
  purchase_payment_mode : String
  purchase_date : String
deriving Repr, DecidableEq

/-- `create_to_buy_item` (lines 536-549): insert with `created_by` stamped
from the caller. -/
def create_to_buy_item (db : Store) (caller : User) (x : ToBuyItemCreate) :
    Store × Except HErr ToBuyItem :=
  let ni : ToBuyItem :=
    { id := db.next_item_id, name := x.name, quantity := x.quantity,
      target_date := x.target_date, priority := x.priority, notes := x.notes,
      created_by := caller.id, purchased := false, purchased_by := none,
      purchase_amount := none, purchase_payment_mode := none, purchase_date := none }
  ({ db with to_buy_items := db.to_buy_items ++ [ni],
             next_item_id := db.next_item_id + 1 }, .ok ni)

/-- The field mutations of lines 562-566. -/
def applyPurchase (info : ToBuyItemPurchase) (i : ToBuyItem) : ToBuyItem :=
  { i with purchased := true,
           purchased_by := some info.purchased_by,
           purchase_amount := some info.purchase_amount,
           purchase_payment_mode := some info.purchase_payment_mode,
           purchase_date := some info.purchase_date }

/-- Apply the purchase mutation to the first row matching the id (the ORM
mutates the object returned by `.first()`). -/
def markFirst (item_id : Nat) (info : ToBuyItemPurchase) :
    List ToBuyItem → List ToBuyItem
  | [] => []
  | i :: rest =>
    if i.id = item_id then applyPurchase info i :: rest
    else i :: markFirst item_id info rest

/-- The expense row built at lines 576-584: fixed time `"12:00"`, description
`"Purchase: " ++ item name`. -/
def purchaseExpense (eid cat_id : Nat) (info : ToBuyItemPurchase)
    (itemName : String) : Expense :=
  { id := eid, amount := info.purchase_amount, category_id := cat_id,
    payment_mode := info.purchase_payment_mode, paid_by := info.purchased_by,
    date := info.purchase_date, time := "12:00",
    description := some ("Purchase: " ++ itemName) }

/-- `mark_item_purchased` (lines 551-589), final-state semantics: 404 if the
item id is absent; otherwise mark the item purchased, resolve or lazily create
(color `"#6366f1"`) the `"To-Buy Items"` category, and insert the linked
expense.  Returns the refreshed item. -/
def mark_item_purchased (db : Store) (item_id : Nat) (info : ToBuyItemPurchase) :
    Store × Except HErr ToBuyItem :=
  match db.to_buy_items.find? (fun i => decide (i.id = item_id)) with
  | none => (db, .error ⟨404, "Item not found"⟩)
  | some item =>
    let items := markFirst item_id info db.to_buy_items
    match db.categories.find? (fun c => decide (c.name = "To-Buy Items")) with
    | some cat =>
      let exp := purchaseExpense db.next_expense_id cat.id info item.name
      ({ db with to_buy_items := items, expenses := db.expenses ++ [exp],
                 next_expense_id := db.next_expense_id + 1 },
       .ok (applyPurchase info item))
    | none =>
      let cat : Category :=
        { id := db.next_category_id, name := "To-Buy Items", color := "#6366f1" }
      let exp := purchaseExpense db.next_expense_id cat.id info item.name
      ({ db with to_buy_items := items,
                 categories := db.categories ++ [cat],
                 next_category_id := db.next_category_id + 1,
                 expenses := db.expenses ++ [exp],
                 next_expense_id := db.next_expense_id + 1 },
       .ok (applyPurchase info item))

/-- `mark_item_purchased` (lines 551-589), commit-trace semantics: the list of
database states committed during one execution, in order.  `db.commit()`
flushes every pending change in the session.  When the `"To-Buy Items"`
category already exists the only commit is the final one (line 587); when it
must be created, the commit at line 573 also flushes the already-mutated item,
so an intermediate state with the item purchased and the category present but
no expense is committed first. -/
def mark_item_purchased_commits (db : Store) (item_id : Nat)
    (info : ToBuyItemPurchase) : List Store :=
  match db.to_buy_items.find? (fun i => decide (i.id = item_id)) with
  | none => []
  | some item =>
    let items := markFirst item_id info db.to_buy_items
    match db.categories.find? (fun c => decide (c.name = "To-Buy Items")) with
    | some cat =>
      let exp := purchaseExpense db.next_expense_id cat.id info item.name
      [{ db with to_buy_items := items, expenses := db.expenses ++ [exp],
                 next_expense_id := db.next_expense_id + 1 }]
    | none =>
      let cat : Category :=
        { id := db.next_category_id, name := "To-Buy Items", color := "#6366f1" }
      let db1 := { db with to_buy_items := items,
                           categories := db.categories ++ [cat],
                           next_category_id := db.next_category_id + 1 }
      let exp := purchaseExpense db1.next_expense_id cat.id info item.name
      [db1, { db1 with expenses := db1.expenses ++ [exp],
                       next_expense_id := db1.next_expense_id + 1 }]

/-- `delete_to_buy_item` (lines 591-603): 404 if the id is absent. -/
def delete_to_buy_item (db : Store) (item_id : Nat) : Store × Except HErr String :=
  match db.to_buy_items.find? (fun x => decide (x.id = item_id)) with
  | none => (db, .error ⟨404, "Item not found"⟩)
  | some _ =>
    ({ db with to_buy_items := db.to_buy_items.filter (fun x => decide (x.id ≠ item_id)) },
     .ok "Item deleted successfully")

/-! ## Settings endpoints (lines 607-636) -/

/-- Request body `SettingsUpdate` (lines 197-199). -/
structure SettingsUpdate where
  currency_symbol : String
  home_name : String
deriving Repr, DecidableEq

/-- Update the first row with the given key, or append a new row (one branch
of `update_settings`). -/
def upsertSetting (k v : String) : List Setting → List Setting
  | [] => [⟨k, v⟩]
  | s :: rest =>
    if s.key = k then ⟨k, v⟩ :: rest else s :: upsertSetting k v rest

/-- `update_settings` (lines 615-636): admin-gated two-field upsert. -/
def update_settings (db : Store) (caller : User) (s : SettingsUpdate) :
    Store × Except HErr String :=
  match get_admin_user caller with
  | .error e => (db, .error e)
  | .ok _ =>
    let st := upsertSetting "currency_symbol" s.currency_symbol db.settings
    let st := upsertSetting "home_name" s.home_name st
    ({ db with settings := st }, .ok "Settings updated successfully")

/-! ## Operation sequences and the seeded initial store -/

/-- One state-changing operation of the store, with the (already
authenticated) caller where the endpoint uses it. -/
inductive Op where
  | opCreateUser (caller : User) (u : UserCreate)
  | opDeleteUser (caller : User) (id : Nat)
  | opCreateCategory (c : CategoryCreate)
  | opDeleteCategory (caller : User) (id : Nat)
  | opCreateExpense (x : ExpenseCreate)
  | opDeleteExpense (id : Nat)
  | opCreateToBuyItem (caller : User) (x : ToBuyItemCreate)
  | opDeleteToBuyItem (id : Nat)
  | opMarkPurchased (id : Nat) (info : ToBuyItemPurchase)
  | opUpdateSettings (caller : User) (s : SettingsUpdate)
deriving Repr

/-- State effect of one operation (an error leaves the store unchanged). -/
def applyOp (db : Store) : Op → Store
  | .opCreateUser caller u => (create_user db caller u).1
  | .opDeleteUser caller i => (delete_user db caller i).1
  | .opCreateCategory c => (create_category db c).1
  | .opDeleteCategory caller i => (delete_category db caller i).1
  | .opCreateExpense x => (create_expense db x).1
  | .opDeleteExpense i => (delete_expense db i).1
  | .opCreateToBuyItem caller x => (create_to_buy_item db caller x).1
  | .opDeleteToBuyItem i => (delete_to_buy_item db i).1
  | .opMarkPurchased i info => (mark_item_purchased db i info).1
  | .opUpdateSettings caller s => (update_settings db caller s).1

/-- Run a sequence of operations. -/
def execOps (db : Store) (ops : List Op) : Store :=
  ops.foldl applyOp db

/-- The store produced by the first-run bootstrap (`startup_event`,
lines 292-340): three users, five categories, two settings. -/
def seedStore : Store :=
  { users :=
      [⟨1, "admin", "admin", "Home Admin", "admin"⟩,
       ⟨2, "user1", "user1", "User One", "user"⟩,
       ⟨3, "user2", "user2", "User Two", "user"⟩],
    categories :=
      [⟨1, "Groceries", "#22c55e"⟩, ⟨2, "Rent", "#3b82f6"⟩,
       ⟨3, "Utilities", "#f97316"⟩, ⟨4, "Transportation", "#8b5cf6"⟩,
       ⟨5, "Entertainment", "#ec4899"⟩],
    expenses := [],
    to_buy_items := [],
    settings := [⟨"currency_symbol", "₹"⟩, ⟨"home_name", "Shared Home"⟩],
    next_user_id := 4, next_category_id := 6,
    next_expense_id := 1, next_item_id := 1 }

/-- The expense rows of `db` that correspond to the purchase of item `i`:
those carrying exactly the data `mark_item_purchased` wrote for it — the
description derived from the item's name and the payer/amount/payment-mode/
date equal to the item's recorded purchase fields. -/
def correspondingExpenses (db : Store) (i : ToBuyItem) : List Expense :=
  db.expenses.filter (fun e =>
    decide (e.description = some ("Purchase: " ++ i.name)) &&
    decide (some e.paid_by = i.purchased_by) &&
    decide (some e.amount = i.purchase_amount) &&
    decide (some e.payment_mode = i.purchase_payment_mode) &&
    decide (some e.date = i.purchase_date))

/-- The cross-entity invariant asserted by the spec: every purchased to-buy
item has exactly one corresponding expense row. -/
def PurchasedInvariant (db : Store) : Prop :=
  ∀ i ∈ db.to_buy_items, i.purchased = true → (correspondingExpenses db i).length = 1

instance (db : Store) : Decidable (PurchasedInvariant db) := by
  unfold PurchasedInvariant; infer_instance

/-! ## Helper lemmas -/

/-- In a table with pairwise-distinct usernames, looking a member up by its
username finds exactly that row. -/
theorem find?_username_of_mem (l : List User) (u : User)
    (hnd : (l.map User.username).Nodup) (hm : u ∈ l) :
    l.find? (fun v => decide (v.username = u.username)) = some u := by
  induction l with
  | nil => cases hm
  | cons v rest ih =>
    simp only [List.map_cons, List.nodup_cons] at hnd
    rcases List.mem_cons.mp hm with rfl | hm'
    · exact List.find?_cons_of_pos _ (by simp)
    · by_cases hv : v.username = u.username
      · exact absurd (hv ▸ List.mem_map.mpr ⟨u, hm', rfl⟩) hnd.1
      · rw [List.find?_cons_of_neg _ (by simpa using hv)]
        exact ih hnd.2 hm'

/-! ## Claim theorems -/

/-- C4: `issueToken(username, password)` succeeds iff some stored user has
exactly that username and a stored password equal (plain string equality, no
hashing) to the submitted password; on success the token embeds that username
and expiry `now + 24h`; with no match it fails 401 "Invalid credentials". -/
theorem login_spec (db : Store) (secret : String) (now : Nat) (un pw : String) :
    ((∃ u ∈ db.users, u.username = un ∧ u.password = pw) →
      ∃ tok u, login db secret now un pw = .ok (tok, u) ∧ u ∈ db.users ∧
        u.username = un ∧ u.password = pw ∧
        tok.sub = un ∧ tok.exp = now + accessTokenExpireSeconds) ∧
    ((∀ u ∈ db.users, ¬(u.username = un ∧ u.password = pw)) →
      login db secret now un pw = .error ⟨401, "Invalid credentials"⟩) := by
  constructor
  · rintro ⟨u, hu, hun, hpw⟩
    have hsome :
        (db.users.find? (fun v => decide (v.username = un) && decide (v.password = pw))).isSome := by
      rw [List.find?_isSome]
      exact ⟨u, hu, by simp [hun, hpw]⟩
    rcases hfs : db.users.find? (fun v => decide (v.username = un) && decide (v.password = pw))
      with _ | v
    · rw [hfs] at hsome; cases hsome
    · have hv := List.find?_some hfs
      simp only [Bool.and_eq_true, decide_eq_true_eq] at hv
      refine ⟨create_access_token secret now v.username, v, ?_,
        List.mem_of_find?_eq_some hfs, hv.1, hv.2, by simp [create_access_token, hv.1], rfl⟩
      simp [login, hfs]
  · intro h
    have hnone :
        db.users.find? (fun v => decide (v.username = un) && decide (v.password = pw)) = none := by
      rw [List.find?_eq_none]
      intro x hx
      simpa using h x hx
    simp [login, hnone]

/-- C4 witness: the seeded admin user logs in successfully. -/
theorem login_spec_witness :
    ∃ tok u, login seedStore "key" 1000 "admin" "admin" = .ok (tok, u) ∧
      u ∈ seedStore.users ∧ u.username = "admin" ∧ u.password = "admin" ∧
      tok.sub = "admin" ∧ tok.exp = 1000 + accessTokenExpireSeconds :=
  (login_spec seedStore "key" 1000 "admin" "admin").1 (by decide)

/-- C5: round-trip — a token issued by a successful `login` and resolved
immediately (same clock instant) by `get_current_user` yields the same user
record, provided usernames are pairwise distinct (the table's unique
constraint). -/
theorem login_resolve_roundtrip (db : Store) (secret : String) (now : Nat)
    (un pw : String) (tok : Token) (u : User)
    (hnodup : (db.users.map User.username).Nodup)
    (hlogin : login db secret now un pw = .ok (tok, u)) :
    get_current_user db secret now tok = .ok u := by
  unfold login at hlogin
  rcases hfs : db.users.find? (fun v => decide (v.username = un) && decide (v.password = pw))
    with _ | v
  · rw [hfs] at hlogin; cases hlogin
  · rw [hfs] at hlogin
    simp only [Except.ok.injEq, Prod.mk.injEq] at hlogin
    obtain ⟨htok, hu⟩ := hlogin
    subst htok; subst hu
    have hmem := List.mem_of_find?_eq_some hfs
    have hdecode :
        decode_access_token secret now (create_access_token secret now v.username) =
          some v.username := by
      simp [decode_access_token, create_access_token]
    simp [get_current_user, hdecode, find?_username_of_mem db.users v hnodup hmem]

/-- C5 witness: the seeded admin's token round-trips. -/
theorem login_resolve_roundtrip_witness :
    get_current_user seedStore "key" 1000 (create_access_token "key" 1000 "admin") =
      .ok ⟨1, "admin", "admin", "Home Admin", "admin"⟩ :=
  login_resolve_roundtrip seedStore "key" 1000 "admin" "admin"
    (create_access_token "key" 1000 "admin") ⟨1, "admin", "admin", "Home Admin", "admin"⟩
    (by decide) (by rfl)

/-- C6: `resolveToken` fails with a 401 — detail "Invalid or expired token" —
for every token older than the 24-hour lifetime (issued at `t0`, resolved at
`now > t0 + 24h`) and for every token whose signature check fails; and it
fails with a 401 whenever the embedded username maps to no stored user. -/
theorem resolve_token_failures (db : Store) (secret : String) (now : Nat) (t : Token) :
    (∀ sub t0, t = create_access_token secret t0 sub →
      t0 + accessTokenExpireSeconds < now →
      get_current_user db secret now t = .error ⟨401, "Invalid or expired token"⟩) ∧
    (t.sig ≠ signToken secret t.sub t.exp →
      get_current_user db secret now t = .error ⟨401, "Invalid or expired token"⟩) ∧
    ((∀ u ∈ db.users, u.username ≠ t.sub) →
      ∃ d, get_current_user db secret now t = .error ⟨401, d⟩) := by
  refine ⟨?_, ?_, ?_⟩
  · rintro sub t0 rfl hlt
    have hdec : decode_access_token secret now (create_access_token secret t0 sub) = none := by
      unfold decode_access_token create_access_token
      exact if_neg (fun h => absurd h.2 (by simp only at h ⊢; omega))
    simp [get_current_user, hdec]
  · intro hsig
    have hdec : decode_access_token secret now t = none := by
      unfold decode_access_token
      exact if_neg (fun h => hsig h.1)
    simp [get_current_user, hdec]
  · intro hmap
    unfold get_current_user
    rcases hd : decode_access_token secret now t with _ | un
    · exact ⟨"Invalid or expired token", rfl⟩
    · have hun : un = t.sub := by
        unfold decode_access_token at hd
        split at hd
        · cases hd; rfl
        · cases hd
      have hnone : db.users.find? (fun u => decide (u.username = un)) = none := by
        rw [List.find?_eq_none]
        intro x hx
        simpa [hun] using hmap x hx
      simp only [hnone]
      exact ⟨"User not found", rfl⟩

/-- C6 witness: an expired token, a token with a corrupted signature, and a
valid-signature token for a username that maps to no user all fail with 401. -/
theorem resolve_token_failures_witness :
    get_current_user seedStore "key" 90000 (create_access_token "key" 0 "admin") =
      .error ⟨401, "Invalid or expired token"⟩ ∧
    get_current_user seedStore "key" 0 ⟨"admin", 86400, 0⟩ =
      .error ⟨401, "Invalid or expired token"⟩ ∧
    ∃ d, get_current_user seedStore "key" 0 (create_access_token "key" 0 "ghost") =
      .error ⟨401, d⟩ :=
  ⟨(resolve_token_failures seedStore "key" 90000 (create_access_token "key" 0 "admin")).1
      "admin" 0 rfl (by decide),
   (resolve_token_failures seedStore "key" 0 ⟨"admin", 86400, 0⟩).2.1 (by decide),
   (resolve_token_failures seedStore "key" 0 (create_access_token "key" 0 "ghost")).2.2
      (by decide)⟩

/-- C8: a caller whose role is not "admin" gets 403 "Admin access required"
from every admin-only operation — create user, delete user, delete category,
update settings — with the store left unchanged, whatever the payload. -/
theorem admin_gate (db : Store) (caller : User) (u : UserCreate)
    (uid cid : Nat) (s : SettingsUpdate) (h : caller.role ≠ "admin") :
    create_user db caller u = (db, .error ⟨403, "Admin access required"⟩) ∧
    delete_user db caller uid = (db, .error ⟨403, "Admin access required"⟩) ∧
    delete_category db caller cid = (db, .error ⟨403, "Admin access required"⟩) ∧
    update_settings db caller s = (db, .error ⟨403, "Admin access required"⟩) := by
  have hga : get_admin_user caller = .error ⟨403, "Admin access required"⟩ := by
    simp [get_admin_user, h]
  exact ⟨by simp [create_user, hga], by simp [delete_user, hga],
         by simp [delete_category, hga], by simp [update_settings, hga]⟩

/-- C8 witness: the seeded regular user `user1` is rejected by all four
admin-only operations on the seeded store. -/
theorem admin_gate_witness :
    create_user seedStore ⟨2, "user1", "user1", "User One", "user"⟩
        ⟨"x", "x", "X", "user"⟩ =
      (seedStore, .error ⟨403, "Admin access required"⟩) ∧
    delete_user seedStore ⟨2, "user1", "user1", "User One", "user"⟩ 1 =
      (seedStore, .error ⟨403, "Admin access required"⟩) ∧
    delete_category seedStore ⟨2, "user1", "user1", "User One", "user"⟩ 1 =
      (seedStore, .error ⟨403, "Admin access required"⟩) ∧
    update_settings seedStore ⟨2, "user1", "user1", "User One", "user"⟩ ⟨"$", "Home"⟩ =
      (seedStore, .error ⟨403, "Admin access required"⟩) :=
  admin_gate seedStore ⟨2, "user1", "user1", "User One", "user"⟩
    ⟨"x", "x", "X", "user"⟩ 1 1 ⟨"$", "Home"⟩ (by decide)

/-- C9: the expense-list filters are guarded by truthiness, not presence —
`category_id=0`, `paid_by=0`, `payment_mode=""`, `start_date=""` and
`end_date=""` each behave exactly as the omitted filter, and in particular
`end_date=""` returns all expenses. -/
theorem expense_filters_truthy (db : Store) (cid pby : Option Nat)
    (pm sd ed : Option String) :
    get_expenses db (some 0) pby pm sd ed = get_expenses db none pby pm sd ed ∧
    get_expenses db cid (some 0) pm sd ed = get_expenses db cid none pm sd ed ∧
    get_expenses db cid pby (some "") sd ed = get_expenses db cid pby none sd ed ∧
    get_expenses db cid pby pm (some "") ed = get_expenses db cid pby pm none ed ∧
    get_expenses db cid pby pm sd (some "") = get_expenses db cid pby pm sd none ∧
    (get_expenses db none none none none (some "")).Perm db.expenses := by
  refine ⟨by simp [get_expenses], by simp [get_expenses], by simp [get_expenses],
    by simp [get_expenses], by simp [get_expenses], ?_⟩
  simpa [get_expenses] using List.mergeSort_perm db.expenses expenseLe

/-- C10: `create_expense` performs no referential check — even when the
supplied `category_id` matches no stored category and `paid_by` matches no
stored user, it inserts the row exactly as supplied and returns it with no
error. -/
theorem create_expense_no_ref_check (db : Store) (x : ExpenseCreate)
    (_hc : ∀ c ∈ db.categories, c.id ≠ x.category_id)
    (_hu : ∀ u ∈ db.users, u.id ≠ x.paid_by) :
    ∃ e, create_expense db x =
        ({ db with expenses := db.expenses ++ [e],
                   next_expense_id := db.next_expense_id + 1 }, .ok e) ∧
      e.amount = x.amount ∧ e.category_id = x.category_id ∧
      e.payment_mode = x.payment_mode ∧ e.paid_by = x.paid_by ∧
      e.date = x.date ∧ e.time = x.time ∧ e.description = x.description :=
  ⟨_, rfl, rfl, rfl, rfl, rfl, rfl, rfl, rfl⟩

/-- C10 witness: an expense with dangling `category_id = 999` and
`paid_by = 999` is inserted into the seeded store without error. -/
theorem create_expense_no_ref_check_witness :
    ∃ e, create_expense seedStore ⟨25, 999, "cash", 999, "2026-01-01", "09:30", none⟩ =
        ({ seedStore with
             expenses := seedStore.expenses ++ [e],
             next_expense_id := seedStore.next_expense_id + 1 }, .ok e) ∧
      e.amount = 25 ∧ e.category_id = 999 ∧ e.payment_mode = "cash" ∧
      e.paid_by = 999 ∧ e.date = "2026-01-01" ∧ e.time = "09:30" ∧
      e.description = none :=
  create_expense_no_ref_check seedStore ⟨25, 999, "cash", 999, "2026-01-01", "09:30", none⟩
    (by decide) (by decide)

/-- `applyPurchase` does not change the row id. -/
theorem applyPurchase_id (info : ToBuyItemPurchase) (i : ToBuyItem) :
    (applyPurchase info i).id = i.id := rfl

/-- Looking the id up after `markFirst` finds the updated first match. -/
theorem find?_markFirst (item_id : Nat) (info : ToBuyItemPurchase)
    (l : List ToBuyItem) (item : ToBuyItem)
    (h : l.find? (fun i => decide (i.id = item_id)) = some item) :
    (markFirst item_id info l).find? (fun i => decide (i.id = item_id)) =
      some (applyPurchase info item) := by
  induction l with
  | nil => cases h
  | cons i rest ih =>
    by_cases hid : i.id = item_id
    · rw [List.find?_cons_of_pos _ (by simpa using hid)] at h
      cases h
      unfold markFirst
      rw [if_pos hid]
      exact List.find?_cons_of_pos _ (by simpa [applyPurchase_id] using hid)
    · rw [List.find?_cons_of_neg _ (by simpa using hid)] at h
      unfold markFirst
      rw [if_neg hid, List.find?_cons_of_neg _ (by simpa using hid)]
      exact ih h

/-- C1: `markPurchased` on an existing unpurchased item succeeds, marks the
item purchased with the four purchase fields equal to the inputs, and appends
exactly one new expense carrying those inputs, categorised under
"To-Buy Items" (created with the fixed color `#6366f1` when absent), with the
fixed time `"12:00"` and description `"Purchase: " ++` the item's name. -/
theorem mark_item_purchased_spec (db : Store) (itemId : Nat)
    (info : ToBuyItemPurchase) (item : ToBuyItem)
    (hfind : db.to_buy_items.find? (fun i => decide (i.id = itemId)) = some item)
    (_hunp : item.purchased = false) :
    ∃ db' item' cat,
      mark_item_purchased db itemId info = (db', .ok item') ∧
      db'.to_buy_items.find? (fun i => decide (i.id = itemId)) = some item' ∧
      item'.purchased = true ∧
      item'.purchased_by = some info.purchased_by ∧
      item'.purchase_amount = some info.purchase_amount ∧
      item'.purchase_payment_mode = some info.purchase_payment_mode ∧
      item'.purchase_date = some info.purchase_date ∧
      cat ∈ db'.categories ∧ cat.name = "To-Buy Items" ∧
      (db.categories.find? (fun c => decide (c.name = "To-Buy Items")) = none →
        cat.color = "#6366f1") ∧
      db'.expenses = db.expenses ++
        [{ id := db.next_expense_id, amount := info.purchase_amount,
           category_id := cat.id, payment_mode := info.purchase_payment_mode,
           paid_by := info.purchased_by, date := info.purchase_date,
           time := "12:00", description := some ("Purchase: " ++ item.name) }] := by
  unfold mark_item_purchased
  rcases hcat : db.categories.find? (fun c => decide (c.name = "To-Buy Items"))
    with _ | cat
  · simp only [hfind, hcat]
    refine ⟨_, applyPurchase info item,
      ⟨db.next_category_id, "To-Buy Items", "#6366f1"⟩,
      rfl, find?_markFirst itemId info _ _ hfind, rfl, rfl, rfl, rfl, rfl,
      by simp, rfl, fun _ => rfl, rfl⟩
  · simp only [hfind, hcat]
    have hname := List.find?_some hcat
    simp only [decide_eq_true_eq] at hname
    refine ⟨_, applyPurchase info item, cat,
      rfl, find?_markFirst itemId info _ _ hfind, rfl, rfl, rfl, rfl, rfl,
      List.mem_of_find?_eq_some hcat, hname, ?_, rfl⟩
    intro hnone
    cases hnone

/-- The seeded store after `user1` creates one to-buy item ("Milk"). -/
def itemStore : Store :=
  (create_to_buy_item seedStore ⟨2, "user1", "user1", "User One", "user"⟩
    { name := "Milk", target_date := "2026-01-10" }).1

/-- The purchase payload used in the concrete scenarios below. -/
def purchase0 : ToBuyItemPurchase :=
  { purchased_by := 2, purchase_amount := 50, purchase_payment_mode := "cash",
    purchase_date := "2026-01-12" }

/-- The "Milk" row as it sits unpurchased in `itemStore`. -/
def milkItem : ToBuyItem :=
  { id := 1, name := "Milk", quantity := none, target_date := "2026-01-10",
    priority := "medium", notes := none, created_by := 2, purchased := false,
    purchased_by := none, purchase_amount := none,
    purchase_payment_mode := none, purchase_date := none }

/-- C1 witness: purchasing the concrete "Milk" item in the seeded store. -/
theorem mark_item_purchased_spec_witness :
    ∃ db' item' cat,
      mark_item_purchased itemStore 1 purchase0 = (db', .ok item') ∧
      db'.to_buy_items.find? (fun i => decide (i.id = 1)) = some item' ∧
      item'.purchased = true ∧
      item'.purchased_by = some purchase0.purchased_by ∧
      item'.purchase_amount = some purchase0.purchase_amount ∧
      item'.purchase_payment_mode = some purchase0.purchase_payment_mode ∧
      item'.purchase_date = some purchase0.purchase_date ∧
      cat ∈ db'.categories ∧ cat.name = "To-Buy Items" ∧
      (itemStore.categories.find? (fun c => decide (c.name = "To-Buy Items")) = none →
        cat.color = "#6366f1") ∧
      db'.expenses = itemStore.expenses ++
        [{ id := itemStore.next_expense_id, amount := purchase0.purchase_amount,
           category_id := cat.id, payment_mode := purchase0.purchase_payment_mode,
           paid_by := purchase0.purchased_by, date := purchase0.purchase_date,
           time := "12:00", description := some ("Purchase: " ++ milkItem.name) }] :=
  mark_item_purchased_spec itemStore 1 purchase0 milkItem (by decide) (by decide)

/-- C2 as amended: immediately after `markPurchased` on an existing
unpurchased item that has no pre-existing corresponding expense row, the item
has exactly one corresponding expense row. -/
theorem purchased_item_one_expense_after_mark (db : Store) (itemId : Nat)
    (info : ToBuyItemPurchase) (item : ToBuyItem)
    (hfind : db.to_buy_items.find? (fun i => decide (i.id = itemId)) = some item)
    (_hunp : item.purchased = false)
    (hpre : correspondingExpenses db (applyPurchase info item) = []) :
    (correspondingExpenses (mark_item_purchased db itemId info).1
      (applyPurchase info item)).length = 1 := by
  unfold correspondingExpenses at hpre ⊢
  unfold mark_item_purchased
  rcases hcat : db.categories.find? (fun c => decide (c.name = "To-Buy Items"))
    with _ | cat <;>
    simp only [hfind, hcat] <;>
    rw [List.filter_append, hpre] <;>
    simp [purchaseExpense, applyPurchase]

/-- C2 witness: the concrete "Milk" purchase leaves exactly one matching
expense row. -/
theorem purchased_item_one_expense_after_mark_witness :
    (correspondingExpenses (mark_item_purchased itemStore 1 purchase0).1
      (applyPurchase purchase0 milkItem)).length = 1 :=
  purchased_item_one_expense_after_mark itemStore 1 purchase0 milkItem
    (by decide) (by decide) (by decide)

/-- C2 counterexample: the invariant "every purchased to-buy item has exactly
one corresponding expense row" is not preserved by the store's operations —
`mark_item_purchased` never checks the `purchased` flag, so marking the same
item purchased twice (a legal operation sequence from the seeded store)
leaves a purchased item with two corresponding expense rows. -/
theorem purchased_invariant_counterexample :
    ¬ PurchasedInvariant (execOps seedStore
      [.opCreateToBuyItem ⟨2, "user1", "user1", "User One", "user"⟩
          { name := "Milk", target_date := "2026-01-10" },
       .opMarkPurchased 1 purchase0,
       .opMarkPurchased 1 purchase0]) := by
  decide

/-- C3 as amended: when the "To-Buy Items" category already exists, one
`mark_item_purchased` execution commits exactly once, and that single commit
contains both the item update and the new expense; when the item id does not
exist, nothing at all is committed. -/
theorem mark_item_purchased_commit_spec (db : Store) (itemId : Nat)
    (info : ToBuyItemPurchase) :
    (db.to_buy_items.find? (fun i => decide (i.id = itemId)) = none →
      mark_item_purchased_commits db itemId info = []) ∧
    (∀ item cat,
      db.to_buy_items.find? (fun i => decide (i.id = itemId)) = some item →
      db.categories.find? (fun c => decide (c.name = "To-Buy Items")) = some cat →
      ∃ s, mark_item_purchased_commits db itemId info = [s] ∧
        s.to_buy_items.find? (fun i => decide (i.id = itemId)) =
          some (applyPurchase info item) ∧
        s.expenses = db.expenses ++
          [purchaseExpense db.next_expense_id cat.id info item.name]) := by
  constructor
  · intro h
    unfold mark_item_purchased_commits
    simp only [h]
  · intro item cat hfind hcat
    unfold mark_item_purchased_commits
    simp only [hfind, hcat]
    exact ⟨_, rfl, find?_markFirst itemId info _ _ hfind, rfl⟩

/-- The item store with the "To-Buy Items" category created up front. -/
def itemStoreWithCat : Store :=
  (create_category itemStore { name := "To-Buy Items" }).1

/-- C3 witness: with the category pre-existing, the concrete purchase commits
once with both writes; a purchase of a nonexistent id commits nothing. -/
theorem mark_item_purchased_commit_spec_witness :
    mark_item_purchased_commits itemStore 99 purchase0 = [] ∧
    ∃ s, mark_item_purchased_commits itemStoreWithCat 1 purchase0 = [s] ∧
      s.to_buy_items.find? (fun i => decide (i.id = 1)) =
        some (applyPurchase purchase0 milkItem) ∧
      s.expenses = itemStoreWithCat.expenses ++
        [purchaseExpense itemStoreWithCat.next_expense_id 6 purchase0 milkItem.name] :=
  ⟨(mark_item_purchased_commit_spec itemStore 99 purchase0).1 (by decide),
   (mark_item_purchased_commit_spec itemStoreWithCat 1 purchase0).2 milkItem
     ⟨6, "To-Buy Items", "#3498db"⟩ (by decide) (by decide)⟩

/-- C3 counterexample: when the "To-Buy Items" category does not yet exist,
the `db.commit()` at line 573 (issued to obtain the new category's id) also
flushes the already-mutated item, committing an intermediate state in which
the item is marked purchased while no expense at all exists. -/
theorem mark_item_purchased_not_atomic :
    ∃ s ∈ mark_item_purchased_commits itemStore 1 purchase0,
      (∃ i ∈ s.to_buy_items, i.purchased = true) ∧ s.expenses = [] := by
  decide

/-- The descending comparison is total. -/
theorem expenseLe_total (a b : Expense) : (expenseLe a b || expenseLe b a) = true := by
  simp only [expenseLe, Bool.or_eq_true, Bool.and_eq_true, decide_eq_true_eq]
  rcases lt_trichotomy a.date b.date with h | h | h
  · exact Or.inr (Or.inl h)
  · rcases le_total a.time b.time with ht | ht
    · exact Or.inr (Or.inr ⟨h.symm, ht⟩)
    · exact Or.inl (Or.inr ⟨h, ht⟩)
  · exact Or.inl (Or.inl h)

/-- The descending comparison is transitive. -/
theorem expenseLe_trans (a b c : Expense) (hab : expenseLe a b = true)
    (hbc : expenseLe b c = true) : expenseLe a c = true := by
  simp only [expenseLe, Bool.or_eq_true, Bool.and_eq_true, decide_eq_true_eq] at hab hbc ⊢
  rcases hab with h1 | ⟨h1, t1⟩ <;> rcases hbc with h2 | ⟨h2, t2⟩
  · exact Or.inl (lt_trans h2 h1)
  · exact Or.inl (h2 ▸ h1)
  · exact Or.inl (h1.symm ▸ h2)
  · exact Or.inr ⟨h1.trans h2, le_trans t2 t1⟩

/-- Every `get_expenses` result is pairwise ordered by date descending then
time descending. -/
theorem get_expenses_sorted (db : Store) (cid pby : Option Nat)
    (pm sd ed : Option String) :
    (get_expenses db cid pby pm sd ed).Pairwise (fun a b => expenseLe a b = true) := by
  unfold get_expenses
  dsimp only
  exact List.sorted_mergeSort (fun a b c => expenseLe_trans a b c)
    (fun a b => expenseLe_total a b) _

/-- Move the truthiness-guarded category filter from the list level to the
predicate level. -/
theorem stage_category (o : Option Nat) (l : List Expense) :
    (match o with
     | some v => if v ≠ 0 then l.filter (fun e => decide (e.category_id = v)) else l
     | none => l) =
    l.filter (fun e =>
      match o with
      | some v => if v ≠ 0 then decide (e.category_id = v) else true
      | none => true) := by
  rcases o with _ | v
  · simp
  · by_cases hv : v = 0 <;> simp [hv]

/-- Move the truthiness-guarded payer filter to the predicate level. -/
theorem stage_paid_by (o : Option Nat) (l : List Expense) :
    (match o with
     | some v => if v ≠ 0 then l.filter (fun e => decide (e.paid_by = v)) else l
     | none => l) =
    l.filter (fun e =>
      match o with
      | some v => if v ≠ 0 then decide (e.paid_by = v) else true
      | none => true) := by
  rcases o with _ | v
  · simp
  · by_cases hv : v = 0 <;> simp [hv]

/-- Move the truthiness-guarded payment-mode filter to the predicate level. -/
theorem stage_payment_mode (o : Option String) (l : List Expense) :
    (match o with
     | some v => if v ≠ "" then l.filter (fun e => decide (e.payment_mode = v)) else l
     | none => l) =
    l.filter (fun e =>
      match o with
      | some v => if v ≠ "" then decide (e.payment_mode = v) else true
      | none => true) := by
  rcases o with _ | v
  · simp
  · by_cases hv : v = "" <;> simp [hv]

/-- C7: listing expenses with a supplied (nonempty) date range `[s, e]`
returns exactly the stored expenses whose date string satisfies
`s ≤ date ≤ e` (inclusive, lexicographic string comparison) ANDed with
whatever other filters are supplied (by truthiness), ordered by date
descending then time descending. -/
theorem get_expenses_range_spec (db : Store) (cid pby : Option Nat)
    (pm : Option String) (s e : String) (hs : s ≠ "") (he : e ≠ "") :
    (get_expenses db cid pby pm (some s) (some e)).Perm
      (db.expenses.filter (fun x =>
        decide (s ≤ x.date) && decide (x.date ≤ e) &&
        (match cid with
         | some v => if v ≠ 0 then decide (x.category_id = v) else true
         | none => true) &&
        (match pby with
         | some v => if v ≠ 0 then decide (x.paid_by = v) else true
         | none => true) &&
        (match pm with
         | some v => if v ≠ "" then decide (x.payment_mode = v) else true
         | none => true))) ∧
    (get_expenses db cid pby pm (some s) (some e)).Pairwise
      (fun a b => expenseLe a b = true) := by
  refine ⟨?_, get_expenses_sorted db cid pby pm (some s) (some e)⟩
  unfold get_expenses
  dsimp only
  rw [stage_category, stage_paid_by, stage_payment_mode, if_pos hs, if_pos he]
  simp only [List.filter_filter]
  refine (List.mergeSort_perm _ _).trans (List.Perm.of_eq ?_)
  refine List.filter_congr fun x hx => ?_
  simp [Bool.and_comm, Bool.and_left_comm, Bool.and_assoc]

/-- The seeded store with two concrete expenses inserted. -/
def expStore : Store :=
  (create_expense
    (create_expense seedStore
      { amount := 10, category_id := 1, payment_mode := "cash", paid_by := 2,
        date := "2026-01-05", time := "10:00" }).1
    { amount := 20, category_id := 2, payment_mode := "upi", paid_by := 3,
      date := "2026-01-07", time := "09:00" }).1

/-- C7 witness: a concrete range query over the two-expense store. -/
theorem get_expenses_range_spec_witness :
    (get_expenses expStore none none none (some "2026-01-01") (some "2026-12-31")).Perm
      (expStore.expenses.filter (fun x =>
        decide ("2026-01-01" ≤ x.date) && decide (x.date ≤ "2026-12-31") &&
        true && true && true)) ∧
    (get_expenses expStore none none none
      (some "2026-01-01") (some "2026-12-31")).Pairwise
      (fun a b => expenseLe a b = true) :=
  get_expenses_range_spec expStore none none none "2026-01-01" "2026-12-31"
    (by decide) (by decide)

end HomeApp

